import Mathlib

/-!
Shallow embedding of the AskGuru chat widget (src/src/components/ChatWedget.tsx).

The component is a single React function component; its behaviourally relevant
core is the async handler handleSendMessage together with the state cells
messages, inputValue, showOnboarding, error, threadId, isInitPrompt, loading
and the input handler handleInputChange.  We embed the handler as a pure
function from the widget state, the configuration and an environment oracle
(the timestamps returned by Date.now() and the outcome of the fetch call) to
the next state together with the list of outbound requests it issues.

JavaScript truthiness on optional strings (undefined, null and the empty
string are falsy) is modelled by jsTruthy / jsOrOpt; String.prototype.replace
with a string pattern (first occurrence only) is modelled by replaceFirst.
-/

/-- The sender tag of a chat message (the TS union type user | ai). -/
inductive Sender where
  | user
  | ai
deriving DecidableEq, Repr

/-- The Message record of the widget: text, optional source URL, sender, id. -/
structure Message where
  text : String
  source : Option String := none
  sender : Sender
  id : String
deriving DecidableEq, Repr

/-- The ChatWidgetConfig record supplied by the host application. -/
structure ChatWidgetConfig where
  apiKey : String
  logoImage : Option String := none
  apiEndpoint : Option String := none
  welcomeMessage : Option String := none
  botName : Option String := none
  theme : Option String := none
deriving DecidableEq, Repr

/-- The React state cells of the component, collected into one record. -/
structure WidgetState where
  isOpen : Bool
  messages : List Message
  inputValue : String
  showOnboarding : Bool
  error : Option String
  threadId : Option String
  isInitPrompt : Bool
  loading : Bool
deriving DecidableEq, Repr

/-- The state at component mount (the useState initial values). -/
def initialState : WidgetState :=
  { isOpen := false
    messages := []
    inputValue := ""
    showOnboarding := true
    error := none
    threadId := none
    isInitPrompt := true
    loading := false }

/-- The decoded JSON body of a response, with the fields the handler reads:
success, message, threadId, answer.text and answer.source.  Absent fields
(including an absent answer object) are modelled as none. -/
structure RespData where
  success : Bool
  message : Option String := none
  threadId : Option String := none
  answerText : Option String := none
  answerSource : Option String := none
deriving DecidableEq, Repr

/-- A value thrown by fetch or by res.json(): whether it is an Error instance
and, when it is, its message string. -/
structure ThrownValue where
  isError : Bool
  message : String
deriving DecidableEq, Repr

/-- Outcome of res.json(): either it throws (malformed JSON) or it parses. -/
inductive JsonOutcome where
  | parseThrow (e : ThrownValue)
  | parsed (data : RespData)
deriving DecidableEq, Repr

/-- Outcome of the fetch call: either fetch itself throws (network fault) or
it returns a response with an ok flag, a status code and a body outcome. -/
inductive FetchOutcome where
  | fetchThrow (e : ThrownValue)
  | response (ok : Bool) (status : Nat) (body : JsonOutcome)
deriving DecidableEq, Repr

/-- The environment of one handleSendMessage run: the value of Date.now() at
user-message creation, the value of Date.now() at response-message creation,
and the outcome of the network exchange. -/
structure SendInput where
  tUser : Nat
  tResp : Nat
  outcome : FetchOutcome
deriving DecidableEq, Repr

/-- An outbound HTTP request as the handler builds it: destination URL, the
bearer key placed in the Authorization header, and the JSON body fields
(query always; threadId only when the handler adds it). -/
structure Request where
  url : String
  apiKey : String
  query : String
  threadId : Option String
deriving DecidableEq, Repr

/-- JavaScript truthiness of an optional string: truthy iff present and
non-empty. -/
def jsTruthy : Option String → Bool
  | some s => s ≠ ""
  | none => false

/-- JavaScript a || b for an optional string a: b when a is absent or empty. -/
def jsOrOpt (a : Option String) (b : String) : String :=
  match a with
  | some s => if s = "" then b else s
  | none => b

/-- Locate the leftmost occurrence of pat in a character list: the part
before it and the part after it, or none when pat does not occur. -/
def firstSplit (pat : List Char) : List Char → Option (List Char × List Char)
  | [] => none
  | c :: cs =>
    if pat.isPrefixOf (c :: cs) then some ([], (c :: cs).drop pat.length)
    else
      match firstSplit pat cs with
      | some (pre, post) => some (c :: pre, post)
      | none => none

/-- JavaScript String.prototype.replace with a string pattern: replace the
leftmost occurrence of pat (here always the non-empty /chat) by repl, and
return the string unchanged when pat does not occur.  Implemented over the
character list so that it evaluates by kernel reduction. -/
def replaceFirst (s pat repl : String) : String :=
  match firstSplit pat.data s.data with
  | some (pre, post) => String.mk (pre ++ repl.data ++ post)
  | none => s

/-- JavaScript String.prototype.trim: strip leading and trailing whitespace.
Implemented over the character list so that it evaluates by kernel
reduction. -/
def jsTrim (s : String) : String :=
  String.mk (((s.data.dropWhile Char.isWhitespace).reverse.dropWhile Char.isWhitespace).reverse)

/-- The generic fallback used when the caught value is not an Error instance:
the string in the catch branch of handleSendMessage. -/
def genericErrorMessage : String := "An unexpected error occurred. Please try again."

/-- error instanceof Error ? error.message : the generic fallback. -/
def thrownMessage (e : ThrownValue) : String :=
  if e.isError then e.message else genericErrorMessage

/-- The Error thrown on a non-ok HTTP response (template literal
HTTP error! status: followed by the status code). -/
def httpErrorThrown (status : Nat) : ThrownValue :=
  { isError := true, message := "HTTP error! status: " ++ toString status }

/-- The Error thrown on a success:false body:
new Error(data.message || a fixed fallback). -/
def failedRespThrown (data : RespData) : ThrownValue :=
  { isError := true, message := jsOrOpt data.message "Failed to get response from AI" }

/-- Endpoint selection of handleSendMessage: on the initial prompt
config.apiEndpoint || the default /api/chat URL, otherwise
config.apiEndpoint?.replace of /chat by /chat/follow-up || the default
follow-up URL. -/
def selectEndpoint (config : ChatWidgetConfig) (isInit : Bool) : String :=
  if isInit then
    jsOrOpt config.apiEndpoint "http://localhost:3000/api/chat"
  else
    jsOrOpt (config.apiEndpoint.map (fun u => replaceFirst u "/chat" "/chat/follow-up"))
      "http://localhost:3000/api/chat/follow-up"

/-- The setShowOnboarding(false) step guarded by showOnboarding. -/
def hideOnboarding (s : WidgetState) : WidgetState :=
  if s.showOnboarding then { s with showOnboarding := false } else s

/-- The catch branch of handleSendMessage followed by the finally branch:
normalize the thrown value, record it in error, append an ai message
rendering it, clear loading. -/
def catchBranch (s : WidgetState) (tResp : Nat) (e : ThrownValue) : WidgetState :=
  let errorMessage := thrownMessage e
  let errorMsg : Message :=
    { text := "Error: " ++ errorMessage
      source := none
      sender := Sender.ai
      id := toString (tResp + 1) }
  { s with error := some errorMessage
           messages := s.messages ++ [errorMsg]
           loading := false }

/-- The optimistic user message: trimmed input text, user sender, Date.now id. -/
def userMessageOf (s0 : WidgetState) (inp : SendInput) : Message :=
  { text := jsTrim s0.inputValue
    source := none
    sender := Sender.user
    id := toString inp.tUser }

/-- The state right after the optimistic update: onboarding hidden, user
message appended, buffer cleared, loading set, error cleared. -/
def midState (s0 : WidgetState) (inp : SendInput) : WidgetState :=
  { hideOnboarding s0 with
      messages := (hideOnboarding s0).messages ++ [userMessageOf s0 inp]
      inputValue := ""
      loading := true
      error := none }

/-- The outbound request the handler builds: selected endpoint, bearer key,
query from the trimmed text, threadId added only when the initial flag is
cleared and the stored threadId is truthy. -/
def requestOf (config : ChatWidgetConfig) (s0 : WidgetState) : Request :=
  { url := selectEndpoint config s0.isInitPrompt
    apiKey := config.apiKey
    query := jsTrim s0.inputValue
    threadId := if !s0.isInitPrompt && jsTruthy s0.threadId then s0.threadId else none }

/-- The ai message built from a successful payload: answer.text or the fixed
placeholder, answer.source, Date.now plus one as id. -/
def aiMessageOf (inp : SendInput) (data : RespData) : Message :=
  { text := jsOrOpt data.answerText "Sorry, I could not generate a response."
    source := data.answerSource
    sender := Sender.ai
    id := toString (inp.tResp + 1) }

/-- The success branch after the throw checks: record threadId and clear the
initial flag when this is the initial prompt and the payload carries a truthy
threadId, append the ai message, clear loading (the finally branch). -/
def successState (s2 : WidgetState) (inp : SendInput) (data : RespData) : WidgetState :=
  let s3 :=
    if s2.isInitPrompt && jsTruthy data.threadId then
      { s2 with threadId := data.threadId, isInitPrompt := false }
    else s2
  { s3 with messages := s3.messages ++ [aiMessageOf inp data], loading := false }

/-- The body of handleSendMessage after the entry guard: optimistic user
append, request construction, fetch, and the success / catch / finally
branches, faithful to lines 56 to 131 of ChatWedget.tsx. -/
def sendExchange (config : ChatWidgetConfig) (s0 : WidgetState) (inp : SendInput) :
    WidgetState × List Request :=
  let s2 := midState s0 inp
  let req := requestOf config s0
  match inp.outcome with
  | FetchOutcome.fetchThrow e => (catchBranch s2 inp.tResp e, [req])
  | FetchOutcome.response ok status body =>
    if !ok then
      (catchBranch s2 inp.tResp (httpErrorThrown status), [req])
    else
      match body with
      | JsonOutcome.parseThrow e => (catchBranch s2 inp.tResp e, [req])
      | JsonOutcome.parsed data =>
        if !data.success then
          (catchBranch s2 inp.tResp (failedRespThrown data), [req])
        else
          (successState s2 inp data, [req])

/-- handleSendMessage: the entry guard (empty trimmed buffer or an in-flight
request means an immediate return issuing nothing), then the exchange. -/
def handleSendMessage (config : ChatWidgetConfig) (s0 : WidgetState) (inp : SendInput) :
    WidgetState × List Request :=
  if jsTrim s0.inputValue = "" ∨ s0.loading then (s0, []) else sendExchange config s0 inp

/-- handleInputChange: store the typed value verbatim and clear a standing
(truthy) error. -/
def handleInputChange (s : WidgetState) (v : String) : WidgetState :=
  { s with inputValue := v
           error := if jsTruthy s.error then none else s.error }

/-- One user turn: type the text into the buffer, then invoke submit. -/
def stepState (config : ChatWidgetConfig) (s : WidgetState) (p : String × SendInput) :
    WidgetState :=
  (handleSendMessage config (handleInputChange s p.1) p.2).1

/-- The requests issued by one user turn. -/
def stepRequests (config : ChatWidgetConfig) (s : WidgetState) (p : String × SendInput) :
    List Request :=
  (handleSendMessage config (handleInputChange s p.1) p.2).2

/-- A whole session fragment: fold stepState over a list of turns. -/
def runSubmissions (config : ChatWidgetConfig) (s : WidgetState)
    (ps : List (String × SendInput)) : WidgetState :=
  ps.foldl (stepState config) s

/-- An exchange outcome counts as successful when the HTTP response is ok and
the parsed body has a true success flag. -/
def FetchOutcome.isSuccess : FetchOutcome → Bool
  | FetchOutcome.response ok _ (JsonOutcome.parsed data) => ok && data.success
  | _ => false

/-- The normalized error message an outcome produces, none on success. -/
def failureMessage : FetchOutcome → Option String
  | FetchOutcome.fetchThrow e => some (thrownMessage e)
  | FetchOutcome.response ok status body =>
    if !ok then some (thrownMessage (httpErrorThrown status))
    else
      match body with
      | JsonOutcome.parseThrow e => some (thrownMessage e)
      | JsonOutcome.parsed data =>
        if !data.success then some (thrownMessage (failedRespThrown data)) else none

/-- True exactly when the outcome is a thrown Error instance carrying an
empty message string (the one shape whose normalized message is empty). -/
def thrownEmptyMessage : FetchOutcome → Bool
  | FetchOutcome.fetchThrow e => e.isError && e.message = ""
  | FetchOutcome.response true _ (JsonOutcome.parseThrow e) => e.isError && e.message = ""
  | _ => false

/-- The two messages a successful turn appends: the trimmed user text first,
then the ai message built from the payload. -/
def successMessages (p : String × SendInput) : List Message :=
  match p.2.outcome with
  | FetchOutcome.response _ _ (JsonOutcome.parsed data) =>
    [ { text := jsTrim p.1
        source := none
        sender := Sender.user
        id := toString p.2.tUser },
      { text := jsOrOpt data.answerText "Sorry, I could not generate a response."
        source := data.answerSource
        sender := Sender.ai
        id := toString (p.2.tResp + 1) } ]
  | _ => []

/-- Session invariant tying the thread state together: once the initial flag
is cleared the threadId is a non-empty string, and a present threadId means
the initial flag is cleared. -/
def threadInv (s : WidgetState) : Prop :=
  (s.isInitPrompt = false → jsTruthy s.threadId = true) ∧
  (s.threadId ≠ none → s.isInitPrompt = false)

/-! ## Concrete fixtures used to instantiate the theorems -/

/-- A minimal configuration: only the required apiKey. -/
def cfgK : ChatWidgetConfig := { apiKey := "k" }

/-- A configuration whose apiEndpoint is the empty string. -/
def cfgEmptyEndpoint : ChatWidgetConfig := { apiKey := "k", apiEndpoint := some "" }

/-- A configuration with a customary /api/chat endpoint. -/
def cfgExample : ChatWidgetConfig :=
  { apiKey := "k", apiEndpoint := some "https://api.example.com/api/chat" }

/-- A successful payload carrying no thread identifier. -/
def okNoThread : RespData := { success := true, answerText := some "Hi!" }

/-- A successful payload carrying thread identifier t1. -/
def okWithThread : RespData :=
  { success := true, threadId := some "t1", answerText := some "Hi!" }

/-- A successful exchange, no threadId in the payload, all at millisecond 1000. -/
def sendOkNoThread : SendInput :=
  { tUser := 1000, tResp := 1000,
    outcome := FetchOutcome.response true 200 (JsonOutcome.parsed okNoThread) }

/-- A successful exchange carrying threadId t1, all at millisecond 1000. -/
def sendOkThread : SendInput :=
  { tUser := 1000, tResp := 1000,
    outcome := FetchOutcome.response true 200 (JsonOutcome.parsed okWithThread) }

/-- An exchange answered with HTTP status 500. -/
def send500 : SendInput :=
  { tUser := 5, tResp := 7,
    outcome := FetchOutcome.response false 500 (JsonOutcome.parsed { success := true }) }

/-- An exchange whose body decodes with success false and message boom. -/
def sendAppFail : SendInput :=
  { tUser := 1, tResp := 1,
    outcome := FetchOutcome.response true 200
      (JsonOutcome.parsed { success := false, message := some "boom" }) }

/-- A network fault: fetch rejects with a TypeError whose message is the
browser string Failed to fetch. -/
def sendNetFault : SendInput :=
  { tUser := 5, tResp := 5,
    outcome := FetchOutcome.fetchThrow { isError := true, message := "Failed to fetch" } }

/-- A fault whose thrown Error carries an empty message string. -/
def sendEmptyFault : SendInput :=
  { tUser := 5, tResp := 5,
    outcome := FetchOutcome.fetchThrow { isError := true, message := "" } }

/-- A session state with an established thread: t1 recorded, initial flag
cleared. -/
def boundState : WidgetState :=
  { initialState with threadId := some "t1", isInitPrompt := false }

/-! ## Projection lemmas for the state-building helpers -/

@[simp]
theorem hideOnboarding_messages (s : WidgetState) : (hideOnboarding s).messages = s.messages := by
  unfold hideOnboarding; split <;> rfl

@[simp]
theorem hideOnboarding_threadId (s : WidgetState) : (hideOnboarding s).threadId = s.threadId := by
  unfold hideOnboarding; split <;> rfl

@[simp]
theorem hideOnboarding_isInitPrompt (s : WidgetState) :
    (hideOnboarding s).isInitPrompt = s.isInitPrompt := by
  unfold hideOnboarding; split <;> rfl

@[simp]
theorem hideOnboarding_loading (s : WidgetState) : (hideOnboarding s).loading = s.loading := by
  unfold hideOnboarding; split <;> rfl

@[simp]
theorem hideOnboarding_error (s : WidgetState) : (hideOnboarding s).error = s.error := by
  unfold hideOnboarding; split <;> rfl

@[simp]
theorem midState_messages (s0 : WidgetState) (inp : SendInput) :
    (midState s0 inp).messages = s0.messages ++ [userMessageOf s0 inp] := by
  simp [midState]

@[simp]
theorem midState_threadId (s0 : WidgetState) (inp : SendInput) :
    (midState s0 inp).threadId = s0.threadId := by
  simp [midState]

@[simp]
theorem midState_isInitPrompt (s0 : WidgetState) (inp : SendInput) :
    (midState s0 inp).isInitPrompt = s0.isInitPrompt := by
  simp [midState]

@[simp]
theorem midState_loading (s0 : WidgetState) (inp : SendInput) :
    (midState s0 inp).loading = true := rfl

@[simp]
theorem midState_error (s0 : WidgetState) (inp : SendInput) :
    (midState s0 inp).error = none := rfl

@[simp]
theorem catchBranch_messages (s : WidgetState) (t : Nat) (e : ThrownValue) :
    (catchBranch s t e).messages
      = s.messages ++
        [ { text := "Error: " ++ thrownMessage e
            source := none
            sender := Sender.ai
            id := toString (t + 1) } ] := rfl

@[simp]
theorem catchBranch_threadId (s : WidgetState) (t : Nat) (e : ThrownValue) :
    (catchBranch s t e).threadId = s.threadId := rfl

@[simp]
theorem catchBranch_isInitPrompt (s : WidgetState) (t : Nat) (e : ThrownValue) :
    (catchBranch s t e).isInitPrompt = s.isInitPrompt := rfl

@[simp]
theorem catchBranch_loading (s : WidgetState) (t : Nat) (e : ThrownValue) :
    (catchBranch s t e).loading = false := rfl

@[simp]
theorem catchBranch_error (s : WidgetState) (t : Nat) (e : ThrownValue) :
    (catchBranch s t e).error = some (thrownMessage e) := rfl

@[simp]
theorem successState_messages (s2 : WidgetState) (inp : SendInput) (data : RespData) :
    (successState s2 inp data).messages = s2.messages ++ [aiMessageOf inp data] := by
  unfold successState; split <;> rfl

@[simp]
theorem successState_loading (s2 : WidgetState) (inp : SendInput) (data : RespData) :
    (successState s2 inp data).loading = false := by
  unfold successState; split <;> rfl

@[simp]
theorem successState_error (s2 : WidgetState) (inp : SendInput) (data : RespData) :
    (successState s2 inp data).error = s2.error := by
  unfold successState; split <;> rfl

theorem successState_threadId (s2 : WidgetState) (inp : SendInput) (data : RespData) :
    (successState s2 inp data).threadId
      = if s2.isInitPrompt && jsTruthy data.threadId then data.threadId else s2.threadId := by
  unfold successState; split <;> simp_all

theorem successState_isInitPrompt (s2 : WidgetState) (inp : SendInput) (data : RespData) :
    (successState s2 inp data).isInitPrompt
      = if s2.isInitPrompt && jsTruthy data.threadId then false else s2.isInitPrompt := by
  unfold successState; split <;> simp_all

@[simp]
theorem handleInputChange_inputValue (s : WidgetState) (v : String) :
    (handleInputChange s v).inputValue = v := rfl

@[simp]
theorem handleInputChange_messages (s : WidgetState) (v : String) :
    (handleInputChange s v).messages = s.messages := rfl

@[simp]
theorem handleInputChange_loading (s : WidgetState) (v : String) :
    (handleInputChange s v).loading = s.loading := rfl

@[simp]
theorem handleInputChange_threadId (s : WidgetState) (v : String) :
    (handleInputChange s v).threadId = s.threadId := rfl

@[simp]
theorem handleInputChange_isInitPrompt (s : WidgetState) (v : String) :
    (handleInputChange s v).isInitPrompt = s.isInitPrompt := rfl

/-! ## Case equations for sendExchange and handleSendMessage -/

theorem sendExchange_eq_fetchThrow (config : ChatWidgetConfig) (s0 : WidgetState)
    (inp : SendInput) (e : ThrownValue) (h : inp.outcome = FetchOutcome.fetchThrow e) :
    sendExchange config s0 inp
      = (catchBranch (midState s0 inp) inp.tResp e, [requestOf config s0]) := by
  unfold sendExchange; rw [h]

theorem sendExchange_eq_httpError (config : ChatWidgetConfig) (s0 : WidgetState)
    (inp : SendInput) (status : Nat) (body : JsonOutcome)
    (h : inp.outcome = FetchOutcome.response false status body) :
    sendExchange config s0 inp
      = (catchBranch (midState s0 inp) inp.tResp (httpErrorThrown status),
         [requestOf config s0]) := by
  unfold sendExchange; rw [h]; rfl

theorem sendExchange_eq_parseThrow (config : ChatWidgetConfig) (s0 : WidgetState)
    (inp : SendInput) (status : Nat) (e : ThrownValue)
    (h : inp.outcome = FetchOutcome.response true status (JsonOutcome.parseThrow e)) :
    sendExchange config s0 inp
      = (catchBranch (midState s0 inp) inp.tResp e, [requestOf config s0]) := by
  unfold sendExchange; rw [h]; rfl

theorem sendExchange_eq_failedResp (config : ChatWidgetConfig) (s0 : WidgetState)
    (inp : SendInput) (status : Nat) (data : RespData)
    (h : inp.outcome = FetchOutcome.response true status (JsonOutcome.parsed data))
    (hs : data.success = false) :
    sendExchange config s0 inp
      = (catchBranch (midState s0 inp) inp.tResp (failedRespThrown data),
         [requestOf config s0]) := by
  unfold sendExchange; rw [h]; simp [hs]

theorem sendExchange_eq_success (config : ChatWidgetConfig) (s0 : WidgetState)
    (inp : SendInput) (status : Nat) (data : RespData)
    (h : inp.outcome = FetchOutcome.response true status (JsonOutcome.parsed data))
    (hs : data.success = true) :
    sendExchange config s0 inp
      = (successState (midState s0 inp) inp data, [requestOf config s0]) := by
  unfold sendExchange; rw [h]; simp [hs]

theorem handleSendMessage_guard (config : ChatWidgetConfig) (s0 : WidgetState)
    (inp : SendInput) (h : jsTrim s0.inputValue = "" ∨ s0.loading = true) :
    handleSendMessage config s0 inp = (s0, []) := by
  unfold handleSendMessage
  rcases h with h | h <;> simp [h]

theorem handleSendMessage_go (config : ChatWidgetConfig) (s0 : WidgetState)
    (inp : SendInput) (h1 : jsTrim s0.inputValue ≠ "") (h2 : s0.loading = false) :
    handleSendMessage config s0 inp = sendExchange config s0 inp := by
  unfold handleSendMessage
  simp [h1, h2]

/-! ## Generic step lemmas -/

theorem runSubmissions_nil (config : ChatWidgetConfig) (s : WidgetState) :
    runSubmissions config s [] = s := rfl

theorem runSubmissions_cons (config : ChatWidgetConfig) (s : WidgetState)
    (p : String × SendInput) (ps : List (String × SendInput)) :
    runSubmissions config s (p :: ps) = runSubmissions config (stepState config s p) ps := rfl

theorem sendExchange_requests (config : ChatWidgetConfig) (s0 : WidgetState) (inp : SendInput) :
    (sendExchange config s0 inp).2 = [requestOf config s0] := by
  cases hout : inp.outcome with
  | fetchThrow e => rw [sendExchange_eq_fetchThrow _ _ _ _ hout]
  | response ok status body =>
    cases ok with
    | false => rw [sendExchange_eq_httpError _ _ _ _ _ hout]
    | true =>
      cases body with
      | parseThrow e => rw [sendExchange_eq_parseThrow _ _ _ _ _ hout]
      | parsed data =>
        cases hdd : data.success with
        | false => rw [sendExchange_eq_failedResp _ _ _ _ _ hout hdd]
        | true => rw [sendExchange_eq_success _ _ _ _ _ hout hdd]

theorem stepState_loading_false (config : ChatWidgetConfig) (s : WidgetState)
    (q : String × SendInput) (hload : s.loading = false) (ht : jsTrim q.1 ≠ "") :
    (stepState config s q).loading = false := by
  unfold stepState
  rw [handleSendMessage_go _ _ _ (by simpa using ht) (by simpa using hload)]
  cases hout : q.2.outcome with
  | fetchThrow e => rw [sendExchange_eq_fetchThrow _ _ _ _ hout]; simp
  | response ok status body =>
    cases ok with
    | false => rw [sendExchange_eq_httpError _ _ _ _ _ hout]; simp
    | true =>
      cases body with
      | parseThrow e => rw [sendExchange_eq_parseThrow _ _ _ _ _ hout]; simp
      | parsed data =>
        cases hdd : data.success with
        | false => rw [sendExchange_eq_failedResp _ _ _ _ _ hout hdd]; simp
        | true => rw [sendExchange_eq_success _ _ _ _ _ hout hdd]; simp

theorem stepState_success (config : ChatWidgetConfig) (s : WidgetState)
    (p : String × SendInput) (hload : s.loading = false) (ht : jsTrim p.1 ≠ "")
    (hs : p.2.outcome.isSuccess = true) :
    (stepState config s p).messages = s.messages ++ successMessages p ∧
    (stepState config s p).loading = false := by
  unfold stepState
  rw [handleSendMessage_go _ _ _ (by simpa using ht) (by simpa using hload)]
  cases hout : p.2.outcome with
  | fetchThrow e => rw [hout] at hs; simp [FetchOutcome.isSuccess] at hs
  | response ok status body =>
    cases body with
    | parseThrow e => rw [hout] at hs; simp [FetchOutcome.isSuccess] at hs
    | parsed data =>
      rw [hout] at hs
      simp only [FetchOutcome.isSuccess, Bool.and_eq_true] at hs
      obtain ⟨hok, hsucc⟩ := hs
      subst hok
      rw [sendExchange_eq_success _ _ _ status data hout hsucc]
      constructor
      · simp [successMessages, hout, userMessageOf, aiMessageOf, List.append_assoc]
      · simp

theorem successMessages_senders (p : String × SendInput)
    (hs : p.2.outcome.isSuccess = true) :
    (successMessages p).map Message.sender = [Sender.user, Sender.ai] := by
  cases hout : p.2.outcome with
  | fetchThrow e => rw [hout] at hs; simp [FetchOutcome.isSuccess] at hs
  | response ok status body =>
    cases body with
    | parseThrow e => rw [hout] at hs; simp [FetchOutcome.isSuccess] at hs
    | parsed data => simp [successMessages, hout]

theorem runSuccess_messages (config : ChatWidgetConfig) (s : WidgetState)
    (ps : List (String × SendInput)) (hload : s.loading = false)
    (hok : ∀ p ∈ ps, jsTrim p.1 ≠ "" ∧ p.2.outcome.isSuccess = true) :
    (runSubmissions config s ps).messages = s.messages ++ (ps.map successMessages).flatten ∧
    (runSubmissions config s ps).loading = false := by
  induction ps generalizing s with
  | nil => simp [runSubmissions_nil, hload]
  | cons p ps ih =>
    obtain ⟨hp, hps⟩ := List.forall_mem_cons.mp hok
    have hstep := stepState_success config s p hload hp.1 hp.2
    have hrun := ih (stepState config s p) hstep.2 hps
    refine ⟨?_, by rw [runSubmissions_cons]; exact hrun.2⟩
    rw [runSubmissions_cons, hrun.1, hstep.1]
    simp [List.append_assoc]

theorem genericErrorMessage_ne_empty : genericErrorMessage ≠ "" := by decide

theorem httpMessage_ne_empty (x : String) : "HTTP error! status: " ++ x ≠ "" := by
  intro h
  have h2 := congrArg String.length h
  rw [String.length_append] at h2
  have h3 : ("HTTP error! status: " : String).length = 20 := rfl
  have h4 : ("" : String).length = 0 := rfl
  omega

theorem jsOrOpt_ne_empty (a : Option String) (b : String) (hb : b ≠ "") :
    jsOrOpt a b ≠ "" := by
  unfold jsOrOpt
  cases a with
  | none => exact hb
  | some s =>
    by_cases hs : s = ""
    · simp only [if_pos hs]; exact hb
    · simp only [if_neg hs]; exact hs

/-! ## Claim theorems -/

/-- Claim C1: for every sequence of submissions whose exchanges all succeed
(HTTP ok and a truthy success field), each submission appends exactly two
messages to the transcript, in order: first the user-sender message with the
submitted (trimmed) text, then the ai-sender message built from the payload,
its text falling back to the fixed placeholder when the payload lacks answer
text; the existing transcript stays as an unchanged prefix. -/
theorem c1_success_run_appends_pairs (config : ChatWidgetConfig) (s : WidgetState)
    (ps : List (String × SendInput)) (hload : s.loading = false)
    (hok : ∀ p ∈ ps, jsTrim p.1 ≠ "" ∧ p.2.outcome.isSuccess = true) :
    (runSubmissions config s ps).messages = s.messages ++ (ps.map successMessages).flatten ∧
    (∀ p ∈ ps, (successMessages p).length = 2 ∧
      (successMessages p).map Message.sender = [Sender.user, Sender.ai] ∧
      ((successMessages p).map Message.text).head? = some (jsTrim p.1)) := by
  refine ⟨(runSuccess_messages config s ps hload hok).1, fun p hp => ?_⟩
  have hs := (hok p hp).2
  cases hout : p.2.outcome with
  | fetchThrow e => rw [hout] at hs; simp [FetchOutcome.isSuccess] at hs
  | response ok status body =>
    cases body with
    | parseThrow e => rw [hout] at hs; simp [FetchOutcome.isSuccess] at hs
    | parsed data => simp [successMessages, hout]

/-- Witness for C1: a fresh session, one submission Hello answered with
success, threadId t1 and answer text Hi!, yields exactly the optimistic user
entry followed by the ai entry. -/
theorem c1_witness :
    (runSubmissions cfgK initialState [("Hello", sendOkThread)]).messages
      = [ { text := "Hello", source := none, sender := Sender.user, id := "1000" },
          { text := "Hi!", source := none, sender := Sender.ai, id := "1001" } ] := by
  have h := c1_success_run_appends_pairs cfgK initialState [("Hello", sendOkThread)]
    rfl (by intro p hp; rw [List.mem_singleton] at hp; subst hp; exact ⟨by decide, rfl⟩)
  rw [h.1]; rfl

/-- Claim C4: submit on a state whose loading flag is set is a complete
no-op: the state is returned unchanged and no request is issued. -/
theorem c4_loading_gate (config : ChatWidgetConfig) (s : WidgetState) (inp : SendInput)
    (h : s.loading = true) :
    handleSendMessage config s inp = (s, []) :=
  handleSendMessage_guard config s inp (Or.inr h)

/-- Witness for C4: a loading state with a non-empty buffer is left untouched
and no request goes out. -/
theorem c4_witness :
    handleSendMessage cfgK
      { isOpen := false, messages := [], inputValue := "hi", showOnboarding := true,
        error := none, threadId := none, isInitPrompt := true, loading := true }
      sendOkThread
      = ({ isOpen := false, messages := [], inputValue := "hi", showOnboarding := true,
           error := none, threadId := none, isInitPrompt := true, loading := true }, []) :=
  c4_loading_gate cfgK _ sendOkThread rfl

/-- Claim C8: submit on a state whose buffer trims to the empty string is a
complete no-op: the state is returned unchanged and no request is issued. -/
theorem c8_whitespace_gate (config : ChatWidgetConfig) (s : WidgetState) (inp : SendInput)
    (h : jsTrim s.inputValue = "") :
    handleSendMessage config s inp = (s, []) :=
  handleSendMessage_guard config s inp (Or.inl h)

/-- Witness for C8: a whitespace-only buffer is left untouched and no request
goes out. -/
theorem c8_witness :
    handleSendMessage cfgK { initialState with inputValue := "   " } sendOkThread
      = ({ initialState with inputValue := "   " }, []) :=
  c8_whitespace_gate cfgK _ sendOkThread rfl

/-- Claim C10: every failing exchange (network fault, non-ok status, parse
fault or success:false body) leaves threadId and the initial-prompt flag
unchanged; the thread binding is only updated on the success path. -/
theorem c10_failure_preserves_thread (config : ChatWidgetConfig) (s : WidgetState)
    (inp : SendInput) (hfail : inp.outcome.isSuccess = false) :
    (handleSendMessage config s inp).1.threadId = s.threadId ∧
    (handleSendMessage config s inp).1.isInitPrompt = s.isInitPrompt := by
  by_cases hg : jsTrim s.inputValue = "" ∨ s.loading = true
  · rw [handleSendMessage_guard config s inp hg]; exact ⟨rfl, rfl⟩
  · push_neg at hg
    rw [handleSendMessage_go config s inp hg.1 (by simpa using hg.2)]
    cases hout : inp.outcome with
    | fetchThrow e => rw [sendExchange_eq_fetchThrow _ _ _ _ hout]; simp
    | response ok status body =>
      cases ok with
      | false => rw [sendExchange_eq_httpError _ _ _ _ _ hout]; simp
      | true =>
        cases body with
        | parseThrow e => rw [sendExchange_eq_parseThrow _ _ _ _ _ hout]; simp
        | parsed data =>
          cases hdd : data.success with
          | false => rw [sendExchange_eq_failedResp _ _ _ _ _ hout hdd]; simp
          | true => rw [hout] at hfail; simp [FetchOutcome.isSuccess, hdd] at hfail

/-- Witness for C10: a 500 response on a fresh session leaves threadId unset
and the initial flag set. -/
theorem c10_witness :
    (handleSendMessage cfgK { initialState with inputValue := "Hi" } send500).1.threadId = none ∧
    (handleSendMessage cfgK { initialState with inputValue := "Hi" } send500).1.isInitPrompt
      = true :=
  c10_failure_preserves_thread cfgK { initialState with inputValue := "Hi" } send500 rfl

/-- Claim C9 is violated by the code: message identifiers are built from
Date.now(), so two exchanges completing within the same millisecond (every
Date.now() call returning 1000) produce the duplicate id sequence 1000, 1001,
1000, 1001.  This theorem evaluates the handler at that failing input. -/
theorem c9_duplicate_ids :
    (runSubmissions cfgK initialState
        [("Hello", sendOkThread), ("More", sendOkNoThread)]).messages.map Message.id
      = ["1000", "1001", "1000", "1001"] ∧
    ¬ (["1000", "1001", "1000", "1001"] : List String).Nodup := by
  exact ⟨rfl, by decide⟩

/-- Counterexample to claim C2 as stated: on a fresh session the first
successful exchange (whose payload carries no threadId) does NOT assign
threadId right after it, and a later (second) successful exchange then
changes threadId from none to t1 — so the assignment neither happens right
after the first successful exchange nor is threadId unchanged by later
exchanges. -/
theorem c2_counterexample :
    sendOkNoThread.outcome.isSuccess = true ∧
    (runSubmissions cfgK initialState [("Hello", sendOkNoThread)]).threadId = none ∧
    (runSubmissions cfgK initialState
        [("Hello", sendOkNoThread), ("More", sendOkThread)]).threadId = some "t1" :=
  ⟨rfl, rfl, rfl⟩

/-- Claim C2 (amended): threadId is assigned at most once per session —
namely right after the first successful exchange whose response carries a
(truthy) thread identifier — and is never changed afterwards; once threadId
is set, every subsequent outbound request body includes that same threadId.
Formally: from any reachable state (threadInv) in which threadId is already
recorded as t, any further turn leaves threadId equal to t, keeps the
initial flag cleared, preserves the invariant, and every request it issues
carries threadId t. -/
theorem c2_threadId_stable (config : ChatWidgetConfig) (s : WidgetState)
    (p : String × SendInput) (t : String) (hinv : threadInv s)
    (hset : s.threadId = some t) :
    (stepState config s p).threadId = some t ∧
    (stepState config s p).isInitPrompt = false ∧
    threadInv (stepState config s p) ∧
    ∀ r ∈ stepRequests config s p, r.threadId = some t := by
  have hinit : s.isInitPrompt = false := hinv.2 (by rw [hset]; exact Option.some_ne_none t)
  have htruthy : jsTruthy s.threadId = true := hinv.1 hinit
  have htruthyT : jsTruthy (some t) = true := by rw [← hset]; exact htruthy
  have hA : (stepState config s p).threadId = some t ∧
      (stepState config s p).isInitPrompt = false ∧
      ∀ r ∈ stepRequests config s p, r.threadId = some t := by
    unfold stepState stepRequests
    by_cases hg : jsTrim (handleInputChange s p.1).inputValue = ""
        ∨ (handleInputChange s p.1).loading = true
    · rw [handleSendMessage_guard config (handleInputChange s p.1) p.2 hg]
      exact ⟨hset, hinit, by intro r hr; simp at hr⟩
    · push_neg at hg
      rw [handleSendMessage_go config (handleInputChange s p.1) p.2 hg.1
        (by simpa using hg.2)]
    
      have hreq : ∀ r ∈ (sendExchange config (handleInputChange s p.1) p.2).2,
          r.threadId = some t := by
        rw [sendExchange_requests]
        intro r hr
        rw [List.mem_singleton] at hr
        subst hr
        simp [requestOf, hinit, htruthy, htruthyT, hset]
      refine ⟨?_, ?_, hreq⟩ <;>
      · cases hout : p.2.outcome with
        | fetchThrow e => rw [sendExchange_eq_fetchThrow _ _ _ _ hout]; simp [hset, hinit]
        | response ok status body =>
          cases ok with
          | false => rw [sendExchange_eq_httpError _ _ _ _ _ hout]; simp [hset, hinit]
          | true =>
            cases body with
            | parseThrow e =>
              rw [sendExchange_eq_parseThrow _ _ _ _ _ hout]; simp [hset, hinit]
            | parsed data =>
              cases hdd : data.success with
              | false =>
                rw [sendExchange_eq_failedResp _ _ _ _ _ hout hdd]; simp [hset, hinit]
              | true =>
                rw [sendExchange_eq_success _ _ _ _ _ hout hdd]
                simp [successState_threadId, successState_isInitPrompt, hset, hinit]
  refine ⟨hA.1, hA.2.1, ⟨fun _ => ?_, fun _ => hA.2.1⟩, hA.2.2⟩
  rw [hA.1]
  exact htruthyT

/-- Witness for C2: with thread t1 established, a further turn keeps
threadId t1 and the cleared initial flag. -/
theorem c2_witness :
    (stepState cfgK boundState ("More", sendOkNoThread)).threadId = some "t1" ∧
    (stepState cfgK boundState ("More", sendOkNoThread)).isInitPrompt = false := by
  have h := c2_threadId_stable cfgK boundState ("More", sendOkNoThread) "t1"
    (by constructor <;> intro <;> rfl) rfl
  exact ⟨h.1, h.2.1⟩

/-- Counterexample to claim C3 as stated: a first successful exchange whose
response carries no threadId leaves isInitial (isInitPrompt) still true —
the flag does not become false after every first successful exchange. -/
theorem c3_counterexample :
    sendOkNoThread.outcome.isSuccess = true ∧
    (runSubmissions cfgK initialState [("Hello", sendOkNoThread)]).isInitPrompt = true :=
  ⟨rfl, rfl⟩

/-- Claim C3 (amended): isInitial (isInitPrompt) flips to false exactly after
the first successful exchange whose response carries a truthy threadId, and
once false it is never set back to true by any later operation. -/
theorem c3_initPrompt_monotone (config : ChatWidgetConfig) (s : WidgetState)
    (p : String × SendInput) :
    (s.isInitPrompt = false → (stepState config s p).isInitPrompt = false) ∧
    (∀ status data,
        s.isInitPrompt = true → s.loading = false → jsTrim p.1 ≠ "" →
        p.2.outcome = FetchOutcome.response true status (JsonOutcome.parsed data) →
        data.success = true → jsTruthy data.threadId = true →
        (stepState config s p).isInitPrompt = false) := by
  constructor
  · intro hinit
    unfold stepState
    by_cases hg : jsTrim (handleInputChange s p.1).inputValue = ""
        ∨ (handleInputChange s p.1).loading = true
    · rw [handleSendMessage_guard config (handleInputChange s p.1) p.2 hg]
      exact hinit
    · push_neg at hg
      rw [handleSendMessage_go config (handleInputChange s p.1) p.2 hg.1
        (by simpa using hg.2)]
      cases hout : p.2.outcome with
      | fetchThrow e => rw [sendExchange_eq_fetchThrow _ _ _ _ hout]; simp [hinit]
      | response ok status body =>
        cases ok with
        | false => rw [sendExchange_eq_httpError _ _ _ _ _ hout]; simp [hinit]
        | true =>
          cases body with
          | parseThrow e => rw [sendExchange_eq_parseThrow _ _ _ _ _ hout]; simp [hinit]
          | parsed data =>
            cases hdd : data.success with
            | false => rw [sendExchange_eq_failedResp _ _ _ _ _ hout hdd]; simp [hinit]
            | true =>
              rw [sendExchange_eq_success _ _ _ _ _ hout hdd]
              simp [successState_isInitPrompt, hinit]
  · intro status data hinit hload ht hout hsucc htruthy
    unfold stepState
    rw [handleSendMessage_go config (handleInputChange s p.1) p.2 (by simpa using ht)
      (by simpa using hload)]
    rw [sendExchange_eq_success _ _ _ status data hout hsucc]
    simp [successState_isInitPrompt, hinit, htruthy]

/-- Witness for C3: a fresh session whose first exchange succeeds with
threadId t1 ends with the initial flag cleared. -/
theorem c3_witness :
    (stepState cfgK initialState ("Hello", sendOkThread)).isInitPrompt = false := by
  have h := c3_initPrompt_monotone cfgK initialState ("Hello", sendOkThread)
  exact h.2 200 okWithThread rfl rfl (by decide) rfl rfl (by decide)

/-- Counterexample to claim C5 as stated: a transport fault whose thrown
Error carries an empty message is a failing exchange, yet lastError is set
to the EMPTY string, not a non-empty one. -/
theorem c5_counterexample :
    sendEmptyFault.outcome.isSuccess = false ∧
    (stepState cfgK initialState ("Hello", sendEmptyFault)).loading = false ∧
    (stepState cfgK initialState ("Hello", sendEmptyFault)).error = some "" :=
  ⟨rfl, rfl, rfl⟩

/-- Claim C5 (amended): every failing exchange completes with isLoading
false, lastError set to the normalized message m, and exactly one ai-sender
message rendering m appended after the optimistic user message; m is
non-empty in every failure case except a thrown Error instance carrying an
empty message.  isLoading is cleared whenever an exchange completes, success
or failure. -/
theorem c5_failure_normalizes (config : ChatWidgetConfig) (s : WidgetState)
    (p : String × SendInput) (m : String) (hload : s.loading = false)
    (ht : jsTrim p.1 ≠ "") (hm : failureMessage p.2.outcome = some m) :
    (stepState config s p).loading = false ∧
    (stepState config s p).error = some m ∧
    (stepState config s p).messages
      = s.messages ++
        [ { text := jsTrim p.1, source := none, sender := Sender.user,
            id := toString p.2.tUser },
          { text := "Error: " ++ m, source := none, sender := Sender.ai,
            id := toString (p.2.tResp + 1) } ] ∧
    (thrownEmptyMessage p.2.outcome = false → m ≠ "") ∧
    (∀ q : String × SendInput, jsTrim q.1 ≠ "" →
        (stepState config s q).loading = false) := by
  have hstep : stepState config s p = (sendExchange config (handleInputChange s p.1) p.2).1 := by
    unfold stepState
    rw [handleSendMessage_go config (handleInputChange s p.1) p.2 (by simpa using ht)
      (by simpa using hload)]
  have hall : ∀ q : String × SendInput, jsTrim q.1 ≠ "" →
      (stepState config s q).loading = false :=
    fun q hq => stepState_loading_false config s q hload hq
  cases hout : p.2.outcome with
  | fetchThrow e =>
    rw [hout] at hm
    simp only [failureMessage, Option.some.injEq] at hm
    subst hm
    refine ⟨?_, ?_, ?_, ?_, hall⟩
    · rw [hstep, sendExchange_eq_fetchThrow _ _ _ _ hout]; simp
    · rw [hstep, sendExchange_eq_fetchThrow _ _ _ _ hout]; simp
    · rw [hstep, sendExchange_eq_fetchThrow _ _ _ _ hout]
      simp [userMessageOf, List.append_assoc]
    · intro hfe
      cases he : e.isError with
      | false => simpa [thrownMessage, he] using genericErrorMessage_ne_empty
      | true =>
        simp only [thrownEmptyMessage, he, Bool.true_and] at hfe
        simpa [thrownMessage, he] using of_decide_eq_false hfe
  | response ok status body =>
    cases ok with
    | false =>
      rw [hout] at hm
      simp [failureMessage, thrownMessage, httpErrorThrown] at hm
      subst hm
      refine ⟨?_, ?_, ?_, fun _ => httpMessage_ne_empty _, hall⟩
      · rw [hstep, sendExchange_eq_httpError _ _ _ _ _ hout]; simp
      · rw [hstep, sendExchange_eq_httpError _ _ _ _ _ hout]
        simp [thrownMessage, httpErrorThrown]
      · rw [hstep, sendExchange_eq_httpError _ _ _ _ _ hout]
        simp [userMessageOf, thrownMessage, httpErrorThrown, List.append_assoc]
    | true =>
      cases body with
      | parseThrow e =>
        rw [hout] at hm
        simp [failureMessage] at hm
        subst hm
        refine ⟨?_, ?_, ?_, ?_, hall⟩
        · rw [hstep, sendExchange_eq_parseThrow _ _ _ _ _ hout]; simp
        · rw [hstep, sendExchange_eq_parseThrow _ _ _ _ _ hout]; simp
        · rw [hstep, sendExchange_eq_parseThrow _ _ _ _ _ hout]
          simp [userMessageOf, List.append_assoc]
        · intro hfe
          cases he : e.isError with
          | false => simpa [thrownMessage, he] using genericErrorMessage_ne_empty
          | true =>
            simp only [thrownEmptyMessage, he, Bool.true_and] at hfe
            simpa [thrownMessage, he] using of_decide_eq_false hfe
      | parsed data =>
        cases hdd : data.success with
        | true => rw [hout] at hm; simp [failureMessage, hdd] at hm
        | false =>
          rw [hout] at hm
          simp [failureMessage, hdd, thrownMessage, failedRespThrown] at hm
          subst hm
          refine ⟨?_, ?_, ?_, fun _ => jsOrOpt_ne_empty _ _ (by decide), hall⟩
          · rw [hstep, sendExchange_eq_failedResp _ _ _ _ _ hout hdd]; simp
          · rw [hstep, sendExchange_eq_failedResp _ _ _ _ _ hout hdd]
            simp [thrownMessage, failedRespThrown]
          · rw [hstep, sendExchange_eq_failedResp _ _ _ _ _ hout hdd]
            simp [userMessageOf, thrownMessage, failedRespThrown, List.append_assoc]

/-- Witness for C5: an HTTP 500 answer to Hello on a fresh session clears
loading, records the status message and appends the two entries. -/
theorem c5_witness :
    (stepState cfgK initialState ("Hello", send500)).loading = false ∧
    (stepState cfgK initialState ("Hello", send500)).error
      = some "HTTP error! status: 500" ∧
    (stepState cfgK initialState ("Hello", send500)).messages
      = [ { text := "Hello", source := none, sender := Sender.user, id := "5" },
          { text := "Error: HTTP error! status: 500", source := none,
            sender := Sender.ai, id := "8" } ] := by
  have h := c5_failure_normalizes cfgK initialState ("Hello", send500)
    "HTTP error! status: 500" rfl (by decide) rfl
  refine ⟨h.1, h.2.1, ?_⟩
  rw [h.2.2.1]
  rfl

/-- Counterexample to claim C6 as stated: a network fault rejects with a
TypeError whose own message is Failed to fetch; the normalized message is
that browser string, not the generic fallback (nor the success:false
fallback). -/
theorem c6_counterexample :
    (stepState cfgK initialState ("Hello", sendNetFault)).error
      = some "Failed to fetch" ∧
    "Failed to fetch" ≠ genericErrorMessage ∧
    "Failed to fetch" ≠ "Failed to get response from AI" :=
  ⟨rfl, by decide, by decide⟩

/-- Claim C6 (amended): the normalized message is determined by the failure
kind — a non-ok HTTP status yields the message HTTP error! status: followed
by the status code; an HTTP-success body with success:false yields the body
message field when it is a truthy (non-empty) string and the fixed fallback
otherwise; a transport fault (fetch rejection or JSON parse fault) yields
the thrown error's own message when the thrown value is an Error instance,
and the generic fallback otherwise. -/
theorem c6_error_taxonomy (config : ChatWidgetConfig) (s : WidgetState)
    (p : String × SendInput) (hload : s.loading = false) (ht : jsTrim p.1 ≠ "") :
    (∀ status body, p.2.outcome = FetchOutcome.response false status body →
        (stepState config s p).error
          = some ("HTTP error! status: " ++ toString status)) ∧
    (∀ status data,
        p.2.outcome = FetchOutcome.response true status (JsonOutcome.parsed data) →
        data.success = false →
        (stepState config s p).error
          = some (jsOrOpt data.message "Failed to get response from AI")) ∧
    (∀ e, p.2.outcome = FetchOutcome.fetchThrow e →
        (stepState config s p).error = some (thrownMessage e)) ∧
    (∀ status e,
        p.2.outcome = FetchOutcome.response true status (JsonOutcome.parseThrow e) →
        (stepState config s p).error = some (thrownMessage e)) := by
  have hstep : stepState config s p = (sendExchange config (handleInputChange s p.1) p.2).1 := by
    unfold stepState
    rw [handleSendMessage_go config (handleInputChange s p.1) p.2 (by simpa using ht)
      (by simpa using hload)]
  refine ⟨?_, ?_, ?_, ?_⟩
  · intro status body hout
    rw [hstep, sendExchange_eq_httpError _ _ _ _ _ hout]
    simp [thrownMessage, httpErrorThrown]
  · intro status data hout hdd
    rw [hstep, sendExchange_eq_failedResp _ _ _ _ _ hout hdd]
    simp [thrownMessage, failedRespThrown]
  · intro e hout
    rw [hstep, sendExchange_eq_fetchThrow _ _ _ _ hout]
    simp
  · intro status e hout
    rw [hstep, sendExchange_eq_parseThrow _ _ _ _ _ hout]
    simp

/-- Witness for C6: a success:false body with message boom yields lastError
boom. -/
theorem c6_witness :
    (stepState cfgK initialState ("Hello", sendAppFail)).error = some "boom" := by
  have h := c6_error_taxonomy cfgK initialState ("Hello", sendAppFail) rfl (by decide)
  exact h.2.1 200 { success := false, message := some "boom" } rfl rfl

/-- Counterexample to claim C7 as stated: with apiEndpoint configured as the
empty string (set, hence not unset), the initial request is sent to the
default base URL, not to the configured apiEndpoint verbatim. -/
theorem c7_counterexample :
    cfgEmptyEndpoint.apiEndpoint = some "" ∧
    (stepRequests cfgEmptyEndpoint initialState ("Hello", sendOkThread)).map Request.url
      = ["http://localhost:3000/api/chat"] ∧
    "http://localhost:3000/api/chat" ≠ "" :=
  ⟨rfl, rfl, by decide⟩

/-- Claim C7 (amended): every accepted submission issues exactly one request;
when isInitial is true it goes to Config.apiEndpoint when that is a non-empty
string (the default base URL when it is unset or empty) with body containing
query only; when isInitial is false it goes to the URL obtained by replacing
the first occurrence of /chat in Config.apiEndpoint by /chat/follow-up (the
default follow-up URL when apiEndpoint is unset or the substituted URL is
empty), and the body carries query together with the known threadId. -/
theorem c7_request_shape (config : ChatWidgetConfig) (s : WidgetState)
    (p : String × SendInput) (hinv : threadInv s) (hload : s.loading = false)
    (ht : jsTrim p.1 ≠ "") :
    stepRequests config s p
      = [ { url :=
              if s.isInitPrompt then
                jsOrOpt config.apiEndpoint "http://localhost:3000/api/chat"
              else
                jsOrOpt (config.apiEndpoint.map
                    (fun u => replaceFirst u "/chat" "/chat/follow-up"))
                  "http://localhost:3000/api/chat/follow-up"
            apiKey := config.apiKey
            query := jsTrim p.1
            threadId := if s.isInitPrompt then none else s.threadId } ] ∧
    (s.isInitPrompt = false → ∃ t, s.threadId = some t ∧ t ≠ "") := by
  constructor
  · unfold stepRequests
    rw [handleSendMessage_go config (handleInputChange s p.1) p.2 (by simpa using ht)
      (by simpa using hload), sendExchange_requests]
    cases hi : s.isInitPrompt with
    | true => simp [requestOf, selectEndpoint, hi]
    | false =>
      have htruthy := hinv.1 hi
      simp [requestOf, selectEndpoint, hi, htruthy]
  · intro hi
    have htruthy := hinv.1 hi
    cases hst : s.threadId with
    | none => rw [hst] at htruthy; simp [jsTruthy] at htruthy
    | some t =>
      refine ⟨t, rfl, ?_⟩
      rw [hst] at htruthy
      simpa [jsTruthy] using htruthy

/-- Witness for C7: with an established thread t1 and the example endpoint,
a follow-up submission yields exactly one request to the substituted
follow-up URL carrying query and threadId. -/
theorem c7_witness :
    stepRequests cfgExample boundState ("More", sendOkNoThread)
      = [ { url := "https://api.example.com/api/chat/follow-up", apiKey := "k",
            query := "More", threadId := some "t1" } ] := by
  have h := c7_request_shape cfgExample boundState ("More", sendOkNoThread)
    (by constructor <;> intro <;> rfl) rfl (by decide)
  rw [h.1]
  rfl
